import Mathlib

/-!
Verification of the alert-receiver webhook (`src/webhook/app.py`) of the
self-healing-infrastructure repository.

The handler `alert_receiver` is embedded shallowly: the JSON request body
becomes an inductive `Json` value (`Option Json`, with `none` for an absent
body, i.e. `request.get_json()` returning `None`); Python's truthiness test,
`in` operator, subscripting, `dict.get` and iteration become total Lean
functions returning `Except PyError _` where the Python operation can raise;
the single side effect (`os.system("ansible-playbook ...")`) is recorded as an
invocation log — a list holding the exit status returned by each executed
command.  The handler is parameterised by `exitCode`, the status the external
command would exit with, so that theorems can speak about how (whether) that
status influences the response.
-/

/-- A JSON value as produced by `request.get_json()` — the Python object the
handler works on. -/
inductive Json where
  | null : Json
  | bool (b : Bool) : Json
  | num (n : Int) : Json
  | str (s : String) : Json
  | arr (elems : List Json) : Json
  | obj (fields : List (String × Json)) : Json

/-- The Python exceptions the handler's operations can raise. -/
inductive PyError where
  | keyError : PyError
  | typeError : PyError
  | attributeError : PyError
deriving DecidableEq, Repr

/-- Python truthiness (`bool(x)`) of a JSON value: `None`, `False`, `0`, `""`,
`[]` and `{}` are falsy, everything else truthy.  Used by `if not data`. -/
def Json.truthy : Json → Bool
  | .null => false
  | .bool b => b
  | .num n => n != 0
  | .str s => s != ""
  | .arr elems => !elems.isEmpty
  | .obj fields => !fields.isEmpty

/-- Python equality of a JSON value with a string literal (`x == "lit"`):
true exactly for the equal string, false for every other value (Python
cross-type `==` is false). -/
def eqStr (lit : String) : Json → Bool
  | .str s => s == lit
  | _ => false

/-- Python's `key in x` for a string key: key membership for a dict, element
membership for a list, substring test for a string; `TypeError` otherwise. -/
def pyContains (key : String) : Json → Except PyError Bool
  | .obj fields => .ok (List.lookup key fields).isSome
  | .arr elems => .ok (elems.any (eqStr key))
  | .str s => .ok (key == "" || decide (2 ≤ (s.splitOn key).length))
  | _ => .error .typeError

/-- Python's `x[key]` for a string key: dict lookup raising `KeyError` when
the key is missing; `TypeError` on every non-dict value. -/
def pyGetItem : Json → String → Except PyError Json
  | .obj fields, key =>
    match List.lookup key fields with
    | some v => .ok v
    | none => .error .keyError
  | _, _ => .error .typeError

/-- Python's `x.get(key, default)`: defaulting dict lookup; on a non-dict
value the attribute `get` does not exist, so `AttributeError`. -/
def pyDictGet : Json → String → Json → Except PyError Json
  | .obj fields, key, dflt => .ok ((List.lookup key fields).getD dflt)
  | _, _, _ => .error .attributeError

/-- Python's `for x in v`: a list yields its elements, a string its
one-character strings, a dict its keys; `TypeError` otherwise. -/
def pyIter : Json → Except PyError (List Json)
  | .arr elems => .ok elems
  | .str s => .ok (s.toList.map fun c => Json.str (String.mk [c]))
  | .obj fields => .ok (fields.map fun p => Json.str p.1)
  | _ => .error .typeError

/-- `alert["labels"].get("alertname", "")` — the label extraction performed
for each alert in the loop body (app.py line 16). -/
def extractName (alert : Json) : Except PyError Json :=
  match pyGetItem alert "labels" with
  | .error e => .error e
  | .ok labels => pyDictGet labels "alertname" (Json.str "")

/-- `alertname == "NginxDown"` — the match test of app.py line 18 (the one
remediation rule of the program). -/
def isNginx (alertname : Json) : Bool :=
  eqStr "NginxDown" alertname

/-- The `for alert in data["alerts"]` loop of app.py lines 15–23: first
match returns `("Recovery triggered", 200)` after running the external
command (logged with its exit status); falling off the loop returns
`("No matching alert found", 200)` (line 25).  The second component is the
invocation log. -/
def processAlerts (exitCode : Int) : List Json → Except PyError (String × Nat) × List Int
  | [] => (.ok ("No matching alert found", 200), [])
  | alert :: rest =>
    match extractName alert with
    | .error e => (.error e, [])
    | .ok alertname =>
      if isNginx alertname then (.ok ("Recovery triggered", 200), [exitCode])
      else processAlerts exitCode rest

/-- The whole handler `alert_receiver` of app.py lines 7–25.  `data` is the
parsed request body (`none` = `request.get_json()` returned `None`).  Returns
the HTTP response (body, status) — or the uncaught Python exception — paired
with the invocation log of the external remediation command. -/
def alert_receiver (exitCode : Int) (data : Option Json) :
    Except PyError (String × Nat) × List Int :=
  match data with
  | none => (.ok ("Invalid alert", 400), [])
  | some d =>
    if d.truthy = false then (.ok ("Invalid alert", 400), [])
    else
      match pyContains "alerts" d with
      | .error e => (.error e, [])
      | .ok false => (.ok ("Invalid alert", 400), [])
      | .ok true =>
        match pyGetItem d "alerts" with
        | .error e => (.error e, [])
        | .ok alertsVal =>
          match pyIter alertsVal with
          | .error e => (.error e, [])
          | .ok alerts => processAlerts exitCode alerts

/-- Handling a sequence of independent requests: each request is dispatched
by `alert_receiver`, responses are collected and the invocation logs are
concatenated.  The handler keeps no state between requests. -/
def runBatches (exitCode : Int) :
    List (Option Json) → List (Except PyError (String × Nat)) × List Int
  | [] => ([], [])
  | b :: rest =>
    let r := alert_receiver exitCode b
    let rs := runBatches exitCode rest
    (r.1 :: rs.1, r.2 ++ rs.2)

/-- An alert whose `labels` carry `alertname = "NginxDown"` — the matching
alert of spec Scenario 1. -/
def nginxAlert : Json :=
  Json.obj [("labels", Json.obj [("alertname", Json.str "NginxDown")])]

/-- The batch `{"alerts":[{"labels":{"alertname":"NginxDown"}}]}` of spec
Scenario 1. -/
def nginxBatch : Option Json :=
  some (Json.obj [("alerts", Json.arr [nginxAlert])])

/-- An alert whose `labels` carry `alertname = "DiskFull"` — the
non-matching alert of spec Scenario 2. -/
def diskFullAlert : Json :=
  Json.obj [("labels", Json.obj [("alertname", Json.str "DiskFull")])]

/-- The batch `{"alerts":[{"labels":{"alertname":"DiskFull"}}]}` of spec
Scenario 2. -/
def diskFullBatch : Option Json :=
  some (Json.obj [("alerts", Json.arr [diskFullAlert])])

/-- Replace the value of the first occurrence of `key` in an association
list (Python `d[key] = v` on a dict that already holds `key`); append when
the key is absent. -/
def setAssoc : List (String × Json) → String → Json → List (String × Json)
  | [], key, v => [(key, v)]
  | (k, w) :: rest, key, v =>
    if k == key then (key, v) :: rest else (k, w) :: setAssoc rest key v

/-- Store a value under `key` in a JSON object (identity on non-objects). -/
def Json.setKey : Json → String → Json → Json
  | .obj fields, key, v => .obj (setAssoc fields key v)
  | j, _, _ => j

/-- The loop of app.py lines 15–23 with the iterated list threaded through
as mutable state: besides the outcome of `processAlerts`, it returns the
list of alerts as it stands when the handler exits.  Since the source only
reads the list, every exit point hands it back as received. -/
def processAlertsSt (exitCode : Int) :
    List Json → (Except PyError (String × Nat) × List Int) × List Json
  | [] => ((.ok ("No matching alert found", 200), []), [])
  | alert :: rest =>
    match extractName alert with
    | .error e => ((.error e, []), alert :: rest)
    | .ok alertname =>
      if isNginx alertname then
        ((.ok ("Recovery triggered", 200), [exitCode]), alert :: rest)
      else
        let r := processAlertsSt exitCode rest
        (r.1, alert :: r.2)

/-- The handler of app.py lines 7–25 with the request body threaded through
as mutable state: it additionally returns the body as it stands after the
handler ran.  The one Python value the loop holds a mutable alias to is the
list `data["alerts"]`, so in that branch the returned body is rebuilt from
the list the loop hands back; every other branch only performs reads. -/
def alert_receiver_st (exitCode : Int) (data : Option Json) :
    (Except PyError (String × Nat) × List Int) × Option Json :=
  match data with
  | none => ((.ok ("Invalid alert", 400), []), none)
  | some d =>
    if d.truthy = false then ((.ok ("Invalid alert", 400), []), some d)
    else
      match pyContains "alerts" d with
      | .error e => ((.error e, []), some d)
      | .ok false => ((.ok ("Invalid alert", 400), []), some d)
      | .ok true =>
        match pyGetItem d "alerts" with
        | .error e => ((.error e, []), some d)
        | .ok (Json.arr elems) =>
          let r := processAlertsSt exitCode elems
          (r.1, some (d.setKey "alerts" (Json.arr r.2)))
        | .ok alertsVal =>
          match pyIter alertsVal with
          | .error e => ((.error e, []), some d)
          | .ok alerts => ((processAlertsSt exitCode alerts).1, some d)

/-- An alert is harmless for the loop when its name extracts cleanly and is
not `"NginxDown"`: the loop body neither raises nor matches on it. -/
def NonMatching (alert : Json) : Prop :=
  ∃ v, extractName alert = .ok v ∧ isNginx v = false

theorem processAlerts_skip (exitCode : Int) (l₁ rest : List Json)
    (h : ∀ x ∈ l₁, NonMatching x) :
    processAlerts exitCode (l₁ ++ rest) = processAlerts exitCode rest := by
  induction l₁ with
  | nil => rfl
  | cons a l ih =>
    obtain ⟨v, hv, hnm⟩ := h a (List.mem_cons_self a l)
    have : ∀ x ∈ l, NonMatching x := fun x hx => h x (List.mem_cons_of_mem a hx)
    simp [processAlerts, hv, hnm, ih this]

theorem processAlerts_log_len (exitCode : Int) (l : List Json) :
    (processAlerts exitCode l).2.length ≤ 1 := by
  induction l with
  | nil => simp [processAlerts]
  | cons a rest ih =>
    simp only [processAlerts]
    cases extractName a with
    | error e => simp
    | ok v =>
      by_cases hv : isNginx v
      · simp [hv]
      · simpa [hv] using ih

theorem processAlertsSt_snd (exitCode : Int) (l : List Json) :
    (processAlertsSt exitCode l).2 = l := by
  induction l with
  | nil => rfl
  | cons a rest ih =>
    simp only [processAlertsSt]
    cases extractName a with
    | error e => rfl
    | ok v =>
      by_cases hv : isNginx v
      · simp [hv]
      · simp [hv, ih]

theorem processAlertsSt_fst (exitCode : Int) (l : List Json) :
    (processAlertsSt exitCode l).1 = processAlerts exitCode l := by
  induction l with
  | nil => rfl
  | cons a rest ih =>
    simp only [processAlertsSt, processAlerts]
    cases extractName a with
    | error e => rfl
    | ok v =>
      by_cases hv : isNginx v
      · simp [hv]
      · simp [hv, ih]

theorem setAssoc_of_lookup (fields : List (String × Json)) (key : String)
    (v : Json) (h : List.lookup key fields = some v) :
    setAssoc fields key v = fields := by
  induction fields with
  | nil => simp [List.lookup] at h
  | cons p rest ih =>
    obtain ⟨k, w⟩ := p
    by_cases hk : key == k
    · have hk' : k = key := (beq_iff_eq.mp hk).symm
      simp [List.lookup, hk] at h
      simp [setAssoc, hk', h]
    · have hk2 : (k == key) = false := by
        cases hkk : k == key
        · rfl
        · exact absurd (beq_iff_eq.mpr (beq_iff_eq.mp hkk).symm) (by simp [hk])
      simp [List.lookup, hk] at h
      simp [setAssoc, hk2, ih h]

theorem lookup_ne_nil {fields : List (String × Json)} {key : String} {v : Json}
    (h : List.lookup key fields = some v) : fields.isEmpty = false := by
  cases fields with
  | nil => simp [List.lookup] at h
  | cons p rest => rfl

theorem alert_receiver_obj (exitCode : Int) (fields : List (String × Json))
    (elems : List Json)
    (h : List.lookup "alerts" fields = some (Json.arr elems)) :
    alert_receiver exitCode (some (Json.obj fields)) =
      processAlerts exitCode elems := by
  have hne := lookup_ne_nil h
  simp [alert_receiver, Json.truthy, hne, pyContains, h, pyGetItem, pyIter]

/-- C1: in a well-formed batch whose alerts list has (after a harmless
prefix) a matching alert followed by an arbitrary tail — in particular a
tail holding further matching alerts — the handler answers
`("Recovery triggered", 200)` with exactly one Executor invocation, and the
outcome does not depend on the tail `l₂` at all: only the first matching
alert triggers, and no later alert is inspected. -/
theorem first_match_wins (exitCode : Int) (fields : List (String × Json))
    (l₁ l₂ : List Json) (a : Json)
    (h : List.lookup "alerts" fields = some (Json.arr (l₁ ++ a :: l₂)))
    (hpre : ∀ x ∈ l₁, NonMatching x)
    (ha : ∃ v, extractName a = .ok v ∧ isNginx v = true) :
    alert_receiver exitCode (some (Json.obj fields)) =
      (.ok ("Recovery triggered", 200), [exitCode]) := by
  obtain ⟨v, hv, hm⟩ := ha
  rw [alert_receiver_obj exitCode fields _ h,
    processAlerts_skip exitCode l₁ _ hpre]
  simp [processAlerts, hv, hm]

/-- Witness for C1 at the batch
`{"alerts":[{"labels":{"alertname":"NginxDown"}}, {"labels":{"alertname":"NginxDown"}}]}`:
two matching alerts, one invocation. -/
theorem first_match_wins_witness :
    alert_receiver 0
        (some (Json.obj [("alerts", Json.arr [nginxAlert, nginxAlert])])) =
      (.ok ("Recovery triggered", 200), [0]) :=
  first_match_wins 0 _ [] [nginxAlert] nginxAlert rfl
    (fun x hx => absurd hx (List.not_mem_nil x))
    ⟨Json.str "NginxDown", rfl, rfl⟩

/-- Counterexample to C2 as stated: the body `5` is present, non-empty and
lacks an `"alerts"` field, yet the handler does not return 400 — the
membership test `"alerts" not in data` raises `TypeError` on a number. -/
theorem invalid_payload_counterexample :
    alert_receiver 0 (some (Json.num 5)) = (.error PyError.typeError, []) ∧
      (alert_receiver 0 (some (Json.num 5))).1 ≠
        Except.ok ("Invalid alert", 400) := by
  constructor
  · rfl
  · intro hcontra
    exact nomatch hcontra

/-- C2 (amended): when the body is absent, falsy (empty), or is a JSON
object lacking the `"alerts"` key, the handler returns 400 `"Invalid alert"`
and never invokes the Executor. -/
theorem invalid_payload_amended (exitCode : Int) (data : Option Json)
    (h : data = none ∨ (∃ d, data = some d ∧ d.truthy = false) ∨
      (∃ fields, data = some (Json.obj fields) ∧
        List.lookup "alerts" fields = none)) :
    alert_receiver exitCode data = (.ok ("Invalid alert", 400), []) := by
  rcases h with rfl | ⟨d, rfl, hf⟩ | ⟨fields, rfl, hl⟩
  · rfl
  · simp [alert_receiver, hf]
  · by_cases hf : (Json.obj fields).truthy = false
    · simp [alert_receiver, hf]
    · simp [alert_receiver, hf, pyContains, hl]

/-- Witness for the amended C2 at the body `{"receiver":"x"}` (a truthy
object without an `"alerts"` key). -/
theorem invalid_payload_amended_witness :
    alert_receiver 0 (some (Json.obj [("receiver", Json.str "x")])) =
      (.ok ("Invalid alert", 400), []) :=
  invalid_payload_amended 0 _ (Or.inr (Or.inr ⟨_, rfl, rfl⟩))

/-- C3: in a well-formed batch where no alert's alertname is `"NginxDown"`
(the only rule), the handler returns 200 `"No matching alert found"` and the
Executor is never invoked. -/
theorem no_match_no_invocation (exitCode : Int) (fields : List (String × Json))
    (alerts : List Json)
    (h : List.lookup "alerts" fields = some (Json.arr alerts))
    (hnm : ∀ x ∈ alerts, NonMatching x) :
    alert_receiver exitCode (some (Json.obj fields)) =
      (.ok ("No matching alert found", 200), []) := by
  have h2 := processAlerts_skip exitCode alerts [] hnm
  rw [List.append_nil] at h2
  rw [alert_receiver_obj exitCode fields alerts h, h2]
  rfl

/-- Witness for C3 at Scenario 2's batch
`{"alerts":[{"labels":{"alertname":"DiskFull"}}]}`. -/
theorem no_match_no_invocation_witness :
    alert_receiver 0 diskFullBatch =
      (.ok ("No matching alert found", 200), []) :=
  no_match_no_invocation 0 [("alerts", Json.arr [diskFullAlert])]
    [diskFullAlert] rfl
    (fun x hx => by
      have hx' : x = diskFullAlert := by simpa using hx
      exact hx' ▸ ⟨Json.str "DiskFull", rfl, rfl⟩)

/-- C4: every call of the handler — on any body, valid or invalid — performs
at most one remediation invocation. -/
theorem at_most_one_invocation (exitCode : Int) (data : Option Json) :
    (alert_receiver exitCode data).2.length ≤ 1 := by
  cases data with
  | none => simp [alert_receiver]
  | some d =>
    simp only [alert_receiver]
    split
    · simp
    · split
      · simp
      · simp
      · split
        · simp
        · split
          · simp
          · exact processAlerts_log_len exitCode _

/-- C5 (evaluating the code at the failing input): on Scenario 1's batch
with the external command exiting with status 2, the handler still answers
`("Recovery triggered", 200)` — the nonzero exit status returned by
`os.system` is recorded in the invocation log but discarded: the response
does not reflect the failure, contradicting the claim's required
`RemediationResult = Failure{2}` reporting. -/
theorem exit_status_discarded :
    alert_receiver 2 nginxBatch = (.ok ("Recovery triggered", 200), [2]) :=
  rfl

/-- C6: on Scenario 1's batch `{"alerts":[{"labels":{"alertname":"NginxDown"}}]}`
the handler matches, invokes the Executor exactly once (a one-element
invocation log), and returns 200 `"Recovery triggered"`, whatever the
command's exit status. -/
theorem scenario1_recovery_triggered (exitCode : Int) :
    alert_receiver exitCode nginxBatch =
      (.ok ("Recovery triggered", 200), [exitCode]) :=
  rfl

/-- C7: an alert whose labels dict lacks `"alertname"` gets the empty string
as its name — which matches no rule and raises no error — and the loop
continues with the remaining alerts exactly as if the alert were absent. -/
theorem missing_alertname_defaults_empty (exitCode : Int) (alert : Json)
    (labels : List (String × Json)) (rest : List Json)
    (hl : pyGetItem alert "labels" = .ok (Json.obj labels))
    (hn : List.lookup "alertname" labels = none) :
    extractName alert = .ok (Json.str "") ∧
      processAlerts exitCode (alert :: rest) = processAlerts exitCode rest := by
  have he : extractName alert = .ok (Json.str "") := by
    simp [extractName, hl, pyDictGet, hn]
  have hng : isNginx (Json.str "") = false := rfl
  exact ⟨he, by simp [processAlerts, he, hng]⟩

/-- Witness for C7 at the alert `{"labels":{"instance":"web1"}}`. -/
theorem missing_alertname_defaults_empty_witness :
    extractName (Json.obj [("labels", Json.obj [("instance", Json.str "web1")])]) =
        .ok (Json.str "") ∧
      processAlerts 0 [Json.obj [("labels", Json.obj [("instance", Json.str "web1")])]] =
        processAlerts 0 [] :=
  missing_alertname_defaults_empty 0 _ [("instance", Json.str "web1")] [] rfl rfl

/-- C8: dispatching the same matching batch twice invokes the Executor
twice — the invocation logs of the two calls concatenate, with no
de-duplication — and both calls produce the same response. -/
theorem no_dedup_across_calls (exitCode : Int) (b : Option Json)
    (h : (alert_receiver exitCode b).2.length = 1) :
    (runBatches exitCode [b, b]).1 =
        [(alert_receiver exitCode b).1, (alert_receiver exitCode b).1] ∧
      (runBatches exitCode [b, b]).2.length = 2 := by
  constructor
  · rfl
  · simp [runBatches, h]

/-- Witness for C8 at Scenario 1's batch. -/
theorem no_dedup_across_calls_witness :
    (runBatches 0 [nginxBatch, nginxBatch]).1 =
        [(alert_receiver 0 nginxBatch).1, (alert_receiver 0 nginxBatch).1] ∧
      (runBatches 0 [nginxBatch, nginxBatch]).2.length = 2 :=
  no_dedup_across_calls 0 nginxBatch rfl

/-- C9: when the alerts list holds, after a harmless prefix and at or before
the first match, an entry lacking a `"labels"` key or that is not a dict,
the handler raises an uncaught exception — `KeyError` or `TypeError` —
instead of returning any HTTP response, and nothing is invoked. -/
theorem malformed_alert_raises (exitCode : Int) (fields : List (String × Json))
    (l₁ l₂ : List Json) (a : Json) (e : PyError)
    (h : List.lookup "alerts" fields = some (Json.arr (l₁ ++ a :: l₂)))
    (hpre : ∀ x ∈ l₁, NonMatching x)
    (ha : pyGetItem a "labels" = .error e) :
    alert_receiver exitCode (some (Json.obj fields)) = (.error e, []) ∧
      (e = PyError.keyError ∨ e = PyError.typeError) := by
  constructor
  · rw [alert_receiver_obj exitCode fields _ h,
      processAlerts_skip exitCode l₁ _ hpre]
    simp [processAlerts, extractName, ha]
  · cases a with
    | obj fs =>
      simp only [pyGetItem] at ha
      split at ha
      · exact absurd ha (by simp)
      · injection ha with h2
        exact Or.inl h2.symm
    | null => injection ha with h2; exact Or.inr h2.symm
    | bool b => injection ha with h2; exact Or.inr h2.symm
    | num n => injection ha with h2; exact Or.inr h2.symm
    | str s => injection ha with h2; exact Or.inr h2.symm
    | arr elems => injection ha with h2; exact Or.inr h2.symm

/-- Witness for C9 at the batch `{"alerts":[{}]}` (one alert with no
`labels` key → `KeyError`). -/
theorem malformed_alert_raises_witness :
    alert_receiver 0 (some (Json.obj [("alerts", Json.arr [Json.obj []])])) =
        (.error PyError.keyError, []) ∧
      (PyError.keyError = PyError.keyError ∨
        PyError.keyError = PyError.typeError) :=
  malformed_alert_raises 0 _ [] [] (Json.obj []) PyError.keyError rfl
    (fun x hx => absurd hx (List.not_mem_nil x)) rfl

theorem setKey_of_getItem (d : Json) (elems : List Json)
    (heq : pyGetItem d "alerts" = .ok (Json.arr elems)) :
    d.setKey "alerts" (Json.arr elems) = d := by
  cases d with
  | obj fs =>
    simp only [pyGetItem] at heq
    split at heq
    · next v hl =>
      injection heq with h2
      subst h2
      simp [Json.setKey, setAssoc_of_lookup fs "alerts" _ hl]
    · exact absurd heq (by simp)
  | null => exact absurd heq (by simp [pyGetItem])
  | bool b => exact absurd heq (by simp [pyGetItem])
  | num n => exact absurd heq (by simp [pyGetItem])
  | str s => exact absurd heq (by simp [pyGetItem])
  | arr xs => exact absurd heq (by simp [pyGetItem])

/-- C10: the dispatcher never modifies the batch it receives.  In the
state-threaded translation `alert_receiver_st` — where the request body,
including the alerts list the loop holds a mutable alias to, is handed back
at every exit point — the body after the handler runs equals the body
before, and the observable outcome agrees with `alert_receiver`. -/
theorem batch_read_only (exitCode : Int) (data : Option Json) :
    alert_receiver_st exitCode data = (alert_receiver exitCode data, data) := by
  cases data with
  | none => rfl
  | some d =>
    by_cases ht : d.truthy = false
    · simp [alert_receiver_st, alert_receiver, ht]
    · cases hc : pyContains "alerts" d with
      | error e => simp [alert_receiver_st, alert_receiver, ht, hc]
      | ok b =>
        cases b with
        | false => simp [alert_receiver_st, alert_receiver, ht, hc]
        | true =>
          cases hg : pyGetItem d "alerts" with
          | error e => simp [alert_receiver_st, alert_receiver, ht, hc, hg]
          | ok av =>
            cases av with
            | arr elems =>
              simp only [alert_receiver_st, alert_receiver, ht, hc, hg,
                pyIter, processAlertsSt_fst, processAlertsSt_snd,
                setKey_of_getItem d elems hg]
              simp
            | null =>
              simp [alert_receiver_st, alert_receiver, ht, hc, hg, pyIter]
            | bool b2 =>
              simp [alert_receiver_st, alert_receiver, ht, hc, hg, pyIter]
            | num n =>
              simp [alert_receiver_st, alert_receiver, ht, hc, hg, pyIter]
            | str s =>
              simp [alert_receiver_st, alert_receiver, ht, hc, hg, pyIter,
                processAlertsSt_fst]
            | obj fs =>
              simp [alert_receiver_st, alert_receiver, ht, hc, hg, pyIter,
                processAlertsSt_fst]

